import Mathlib

/-!
Verification of the agent-composition and tool-dispatch core of the
personal-assistant repository.

The embedding follows the TypeScript source:
* `src/utils/zod-utils.ts` — `createTool` (tool descriptor builder);
* `src/agents/base-openai-agent.ts` — agent configuration and `getTools`;
* `src/agents/calculator-agent.ts` — the Calculator provider and its four tools;
* `src/personal-assistant.ts` — the coordinator: registry construction,
  `process`, `handleError`, `clearHistory`, message-history invariants.

JavaScript numbers are modelled as rationals (`Rat`); JSON payloads as an
inductive `JsonValue`; implementations that may throw return `Except`.
-/

/-- Message roles, from the `ChatMessage` interface in `personal-assistant.ts`. -/
inductive Role where
  | system
  | user
  | assistant
deriving DecidableEq

/-- `ChatMessage` from `personal-assistant.ts`: a role plus string content. -/
structure ChatMessage where
  role : Role
  content : String
deriving DecidableEq

/-- JSON-serializable values: tool payloads, parsed arguments and results.
Numbers are modelled as rationals. -/
inductive JsonValue where
  | null
  | bool (b : Bool)
  | num (q : Rat)
  | str (s : String)
  | arr (elems : List JsonValue)
  | obj (fields : List (String × JsonValue))

/-- The field types that occur in the embedded zod schemas. -/
inductive FieldType where
  | num
  | str
deriving DecidableEq

/-- One declared field of a zod object schema: name, type, optionality. -/
structure ZodField where
  name : String
  ty : FieldType
  optional : Bool

/-- A zod object schema: its declared fields plus the `.describe` string,
mirroring `z.object({...}).describe(...)` in the agents. -/
structure ZodObjectSchema where
  fields : List ZodField
  description : String

/-- Parsed, validated arguments handed to a tool implementation. -/
def ParsedArgs : Type := List (String × JsonValue)

/-- `ZodTool` from `base-openai-agent.ts`: name, schema, implementation.
An implementation may fail (a thrown `Error` becomes `Except.error` carrying
the error message). -/
structure ZodTool where
  name : String
  schema : ZodObjectSchema
  implementation : ParsedArgs → Except String JsonValue

/-- The transport-neutral tool descriptor produced by `createTool` in
`zod-utils.ts`: name, description (taken from the schema), the parameter
schema (rendered by `zodToJsonSchema` / parsed by `schema.parse`), and the
wrapped implementation (the `callback`). -/
structure ToolDescriptor where
  name : String
  description : String
  parameters : ZodObjectSchema
  implementation : ParsedArgs → Except String JsonValue

/-- `createTool` from `zod-utils.ts`: builds the descriptor from a `ZodTool`,
taking the description from the schema and keeping the implementation as the
callback. -/
def createTool (t : ZodTool) : ToolDescriptor :=
  { name := t.name
    description := t.schema.description
    parameters := t.schema
    implementation := t.implementation }

/-- Field lookup in a JSON object, by key. -/
def lookupField (fields : List (String × JsonValue)) (n : String) : Option JsonValue :=
  (fields.find? (fun p => p.1 == n)).map (fun p => p.2)

/-- Does a JSON value match a declared field type? -/
def typeMatches : FieldType → JsonValue → Bool
  | .num, .num _ => true
  | .str, .str _ => true
  | _, _ => false

/-- Validation of a JSON object against the declared fields of a zod object
schema (the behaviour of `schema.parse` for the schemas used here): a missing
required field or a wrong-typed field is an error; declared fields present
with the right type are kept; unknown keys are stripped. -/
def parseFields : List ZodField → List (String × JsonValue) → Except String ParsedArgs
  | [], _ => .ok []
  | f :: rest, input =>
    match lookupField input f.name with
    | none =>
      if f.optional then parseFields rest input
      else .error ("Required field missing: " ++ f.name)
    | some v =>
      if typeMatches f.ty v then
        (parseFields rest input).map (fun r => (f.name, v) :: r)
      else .error ("Invalid type for field: " ++ f.name)

/-- The parser of a tool descriptor (`parser` in `createTool`): the raw
payload must be a JSON object conforming to the parameter schema. -/
def parsePayload (schema : ZodObjectSchema) (payload : JsonValue) : Except String ParsedArgs :=
  match payload with
  | .obj fields => parseFields schema.fields fields
  | _ => .error "Expected object payload"

/-- Read a required number argument out of parsed arguments (the typed
destructuring `({a, b}) => ...` of the calculator implementations). -/
def getNum (args : ParsedArgs) (n : String) : Except String Rat :=
  match lookupField args n with
  | some (.num q) => .ok q
  | _ => .error ("Expected number field: " ++ n)

/-- The `add` tool of `calculator-agent.ts`: two required numbers, returns
their sum. -/
def addTool : ZodTool :=
  { name := "add"
    schema :=
      { fields := [⟨"a", .num, false⟩, ⟨"b", .num, false⟩]
        description := "Add two numbers together" }
    implementation := fun args => do
      let a ← getNum args "a"
      let b ← getNum args "b"
      .ok (.num (a + b)) }

/-- The `subtract` tool of `calculator-agent.ts`. -/
def subtractTool : ZodTool :=
  { name := "subtract"
    schema :=
      { fields := [⟨"a", .num, false⟩, ⟨"b", .num, false⟩]
        description := "Subtract the second number from the first number" }
    implementation := fun args => do
      let a ← getNum args "a"
      let b ← getNum args "b"
      .ok (.num (a - b)) }

/-- The `multiply` tool of `calculator-agent.ts`. -/
def multiplyTool : ZodTool :=
  { name := "multiply"
    schema :=
      { fields := [⟨"a", .num, false⟩, ⟨"b", .num, false⟩]
        description := "Multiply two numbers together" }
    implementation := fun args => do
      let a ← getNum args "a"
      let b ← getNum args "b"
      .ok (.num (a * b)) }

/-- The `divide` tool of `calculator-agent.ts`: throws `Division by zero`
when `b === 0`, otherwise returns `a / b`. -/
def divideTool : ZodTool :=
  { name := "divide"
    schema :=
      { fields := [⟨"a", .num, false⟩, ⟨"b", .num, false⟩]
        description := "Divide the first number by the second number" }
    implementation := fun args => do
      let a ← getNum args "a"
      let b ← getNum args "b"
      if b = 0 then .error "Division by zero"
      else .ok (.num (a / b)) }

/-- `AgentConfig` from `base-openai-agent.ts`: name, description, system
prompt, and the fixed tool list. -/
structure Agent where
  name : String
  description : String
  systemPrompt : String
  zodTools : List ZodTool

/-- `BaseOpenAIAgent.getTools`: returns the configured tool list. -/
def getTools (a : Agent) : List ZodTool :=
  a.zodTools

/-- The Calculator capability provider from `calculator-agent.ts`. -/
def calculatorAgent : Agent :=
  { name := "Calculator"
    description := "A mathematical agent that performs accurate and reliable calculations."
    systemPrompt := "You are a highly accurate and fast calculator that will perform the calculations to the highest precision. All responses should be in plain text with no special formatting."
    zodTools := [addTool, subtractTool, multiplyTool, divideTool] }

/-- The merged tool registry built by the coordinator constructor
(`personal-assistant.ts` line 40):
`agents.flatMap(agent => agent.getTools().map(tool => createTool(tool)))`.
There is no duplicate-name check: the lists are simply concatenated. -/
def mergedAgentTools (agents : List Agent) : List ToolDescriptor :=
  agents.flatMap (fun a => (getTools a).map createTool)

/-- Uniqueness of tool names in a registry, following the spec wording
"`name` is globally unique across the merged registry". Stated as a separate
spec-side predicate because the source performs no such check. -/
def specNamesUnique (r : List ToolDescriptor) : Prop :=
  (r.map ToolDescriptor.name).Nodup

instance (r : List ToolDescriptor) : Decidable (specNamesUnique r) := by
  unfold specNamesUnique; infer_instance

/-- The error taxonomy of the dispatch boundary (spec §7). -/
inductive ErrorKind where
  | InvalidArguments
  | ToolError
  | UnknownTool
deriving DecidableEq

/-- `ToolInvocationResult`: the tagged variant returned across the dispatch
boundary — success value or classified failure, never an exception. -/
inductive ToolInvocationResult where
  | Success (value : JsonValue)
  | Failure (kind : ErrorKind) (message : String)

/-- Modelled from the spec: the Tool Dispatcher (spec §4.3 and §4.1). The
runtime that drives the `parser`/`callback` pair built by `createTool` lives
in the external OpenAI `runTools` runner, not under `src/`; this definition
follows the spec wording: locate the descriptor by name (`UnknownTool` when
absent), parse the raw payload with the descriptor's parser (failure →
`InvalidArguments` without invoking the implementation), invoke the
implementation with the typed arguments (a thrown error → `ToolError` with
the original message), and wrap a successful return in `Success`. The second
component records every implementation invocation (which tool, with which
parsed arguments), so that "invoked exactly once" and "never invoked" are
provable. -/
def dispatchT (registry : List ToolDescriptor) (toolName : String) (payload : JsonValue) :
    ToolInvocationResult × List (String × ParsedArgs) :=
  match registry.find? (fun d => d.name == toolName) with
  | none => (.Failure .UnknownTool ("Unknown tool: " ++ toolName), [])
  | some d =>
    match parsePayload d.parameters payload with
    | .error m => (.Failure .InvalidArguments m, [])
    | .ok args =>
      match d.implementation args with
      | .error m => (.Failure .ToolError m, [(d.name, args)])
      | .ok v => (.Success v, [(d.name, args)])

/-- The dispatch result alone (the invocation trace projected away). -/
def dispatch (registry : List ToolDescriptor) (toolName : String) (payload : JsonValue) :
    ToolInvocationResult :=
  (dispatchT registry toolName payload).1

/-- The error information the coordinator extracts from a caught `Error`
(`error.name` as `code`, `error.message`); `none` models a thrown non-`Error`
value, for which `handleError` is called with `undefined`. -/
structure ErrInfo where
  code : String
  message : String
deriving DecidableEq

/-- `PersonalAssistant.handleError` (`personal-assistant.ts` lines 133-144):
canned phrases for the two known codes, a generic message when no error
object is available, and otherwise a message that interpolates the internal
error message. -/
def handleError : Option ErrInfo → String
  | none => "I encountered an unexpected issue."
  | some e =>
    match e.code with
    | "FileNotFoundError" =>
        "I couldn\x27t find that file. Please check if it exists and try again."
    | "PermissionError" =>
        "I don\x27t have permission to perform that action. Please check your permissions and try again."
    | _ =>
        "I encountered an issue: " ++ e.message ++ ". Would you like me to try a different approach?"

/-- The coordinator session state: the configured system prompt
(`this.config.systemPrompt`) and the mutable `messageHistory`. -/
structure AssistantState where
  systemPrompt : String
  messageHistory : List ChatMessage

/-- The history initialisation in the `PersonalAssistant` constructor
(lines 91-94): a single system entry holding the configured system prompt. -/
def initState (sysPrompt : String) : AssistantState :=
  { systemPrompt := sysPrompt
    messageHistory := [{ role := .system, content := sysPrompt }] }

/-- The outcome of one oracle invocation (`runner.finalContent()`): either a
normal completion — carrying the number of intermediate tool calls the
runner performed internally and the possibly-null final content — or a
thrown error with the information the catch block extracts. -/
inductive OracleOutcome where
  | ok (toolCallCount : Nat) (finalContent : Option String)
  | err (e : Option ErrInfo)

/-- The message list sent to the oracle (`personal-assistant.ts` lines
110-116): the history (to which the user entry was already pushed) followed
by a transient system hint carrying the current date and time. The hint is
only part of this call argument, never of `messageHistory`. -/
def oracleMessages (st : AssistantState) (input currentDate : String) : List ChatMessage :=
  (st.messageHistory ++ [{ role := .user, content := input }])
    ++ [{ role := .system, content := "Current date and time: " ++ currentDate }]

/-- `PersonalAssistant.process` (lines 101-131). The user entry is pushed
first; on a normal oracle completion the final content (or the fixed
fallback when it is null) is pushed as the assistant entry and returned; on
a thrown oracle error the catch block returns `handleError` without pushing
an assistant entry. -/
def process (st : AssistantState) (input : String) (outcome : OracleOutcome) :
    String × AssistantState :=
  match outcome with
  | .ok _ result =>
    let hist1 := st.messageHistory ++ [{ role := .user, content := input }]
    let response := result.getD "I was unable to process your request."
    (response, { st with messageHistory := hist1 ++ [{ role := .assistant, content := response }] })
  | .err e =>
    (handleError e,
      { st with messageHistory := st.messageHistory ++ [{ role := .user, content := input }] })

/-- `PersonalAssistant.clearHistory` (lines 150-155): reset the history to
the single system entry holding the configured system prompt. -/
def clearHistory (st : AssistantState) : AssistantState :=
  { st with messageHistory := [{ role := .system, content := st.systemPrompt }] }

/-- The session invariant of spec §3: the first history entry is the current
system prompt. -/
def firstIsSystemPrompt (st : AssistantState) : Prop :=
  st.messageHistory.head? = some { role := .system, content := st.systemPrompt }

/-- A second provider whose tool list also contains a tool named `add`
(with a different schema and implementation), used to exercise the merged
registry on a name collision across two providers. -/
def tallyAddTool : ZodTool :=
  { name := "add"
    schema :=
      { fields := [⟨"x", .num, false⟩]
        description := "Add a quantity to a running total" }
    implementation := fun args => (getNum args "x").map (fun x => .num x) }

/-- A capability provider distinct from the Calculator that also exposes a
tool named `add`. -/
def tallyAgent : Agent :=
  { name := "Tally"
    description := "A provider whose tool list also contains a tool named add."
    systemPrompt := "You keep a running tally."
    zodTools := [tallyAddTool] }

/- ------------------------------------------------------------------ -/
/- Theorems                                                            -/
/- ------------------------------------------------------------------ -/

/-- If a list has a first element, appending on the right keeps it. -/
theorem head?_append_of_head? {α : Type} {l m : List α} {x : α}
    (h : l.head? = some x) : (l ++ m).head? = some x := by
  cases l with
  | nil => cases h
  | cons y t => simpa using h

/-- C8: for every prior history state of any length, `clearHistory` resets
the session history to exactly one entry, the system entry holding the
coordinator's configured system prompt. -/
theorem clearHistory_resets_to_system_prompt (st : AssistantState) :
    (clearHistory st).messageHistory
        = [{ role := .system, content := st.systemPrompt }]
    ∧ (clearHistory st).messageHistory.length = 1
    ∧ (clearHistory st).systemPrompt = st.systemPrompt :=
  ⟨rfl, rfl, rfl⟩

/-- C9: the invariant "the first history element is the current system
prompt" is established by the constructor's history initialisation and
preserved by `process` (which only appends after it, on both the success and
the failure path) and by `clearHistory` (which re-establishes it). -/
theorem first_entry_always_system_prompt :
    (∀ p, firstIsSystemPrompt (initState p))
    ∧ (∀ st input outcome, firstIsSystemPrompt st →
        firstIsSystemPrompt (process st input outcome).2)
    ∧ (∀ st, firstIsSystemPrompt (clearHistory st)) := by
  refine ⟨fun p => rfl, ?_, fun st => rfl⟩
  intro st input outcome h
  cases outcome with
  | ok k r => exact head?_append_of_head? (head?_append_of_head? h)
  | err e => exact head?_append_of_head? h

/-- Witness for C9: the invariant holds after a failed turn on a freshly
constructed session. -/
theorem first_entry_always_system_prompt_witness :
    firstIsSystemPrompt (process (initState "You are Mei.") "hello" (.err none)).2 :=
  first_entry_always_system_prompt.2.1 (initState "You are Mei.") "hello" (.err none)
    (first_entry_always_system_prompt.1 "You are Mei.")

/-- C3: when the oracle invocation fails, `process` returns the fallback
message produced by `handleError` and the history is exactly the prior
history plus the already-appended user entry; no assistant entry is appended
on the failure path. -/
theorem process_oracle_failure_no_assistant_entry (st : AssistantState)
    (input : String) (e : Option ErrInfo) :
    (process st input (.err e)).1 = handleError e
    ∧ (process st input (.err e)).2.messageHistory
        = st.messageHistory ++ [{ role := .user, content := input }]
    ∧ (process st input (.err e)).2.messageHistory.length
        = st.messageHistory.length + 1
    ∧ ∀ s, ({ role := .assistant, content := s } : ChatMessage)
        ∉ ((process st input (.err e)).2.messageHistory).drop st.messageHistory.length := by
  refine ⟨rfl, rfl, by simp [process], ?_⟩
  intro s
  have hd : ((process st input (.err e)).2.messageHistory).drop st.messageHistory.length
      = [{ role := .user, content := input }] := by
    show ((st.messageHistory ++ [({ role := .user, content := input } : ChatMessage)]).drop
      st.messageHistory.length) = _
    simp
  rw [hd]
  simp

/-- C4: on a successful turn — whatever the number `k` of intermediate tool
calls the runner performed — the history grows by exactly two entries, the
user entry holding the inbound text followed by one assistant entry whose
content is the string `process` returns; no system entry (in particular not
the transient date/time hint of `oracleMessages`) is appended to the
history. -/
theorem process_success_appends_exactly_two (st : AssistantState)
    (input : String) (k : Nat) (r : Option String) :
    (process st input (.ok k r)).2.messageHistory
        = st.messageHistory
          ++ [{ role := .user, content := input },
              { role := .assistant, content := (process st input (.ok k r)).1 }]
    ∧ (process st input (.ok k r)).2.messageHistory.length
        = st.messageHistory.length + 2
    ∧ ((process st input (.ok k r)).2.messageHistory).getLast?
        = some { role := .assistant, content := (process st input (.ok k r)).1 }
    ∧ ∀ s, ({ role := .system, content := s } : ChatMessage)
        ∉ ((process st input (.ok k r)).2.messageHistory).drop st.messageHistory.length := by
  have hmem : (process st input (.ok k r)).2.messageHistory
      = st.messageHistory
        ++ [{ role := .user, content := input },
            { role := .assistant, content := (process st input (.ok k r)).1 }] := by
    show (st.messageHistory ++ [({ role := .user, content := input } : ChatMessage)])
        ++ [({ role := .assistant, content := (process st input (.ok k r)).1 } : ChatMessage)] = _
    simp
  refine ⟨hmem, by rw [hmem]; simp, ?_, ?_⟩
  · rw [hmem]
    simp
  · intro s
    rw [hmem]
    simp

/-- C5 counterexample: for the unknown error kind `TypeError`, `handleError`
returns a message that interpolates the internal error message verbatim
(here the literal `secret internal detail`), and that message is not the
generic apology — contradicting the claim that unknown kinds render a
generic apology without internal detail. -/
theorem handleError_leaks_internal_message :
    handleError (some { code := "TypeError", message := "secret internal detail" })
      = "I encountered an issue: " ++ "secret internal detail"
          ++ ". Would you like me to try a different approach?"
    ∧ handleError (some { code := "TypeError", message := "secret internal detail" })
      ≠ "I encountered an unexpected issue." := by
  exact ⟨rfl, by decide⟩

/-- C5 amended: only the two known codes `FileNotFoundError` and
`PermissionError` render canned phrases; when no error object is available
the generic apology is returned; for every other error kind `handleError`
returns a message that interpolates the internal error message. -/
theorem handleError_unknown_kind_interpolates (e : ErrInfo)
    (h1 : e.code ≠ "FileNotFoundError") (h2 : e.code ≠ "PermissionError") :
    handleError (some e)
      = "I encountered an issue: " ++ e.message
          ++ ". Would you like me to try a different approach?" := by
  cases e with
  | mk c m =>
    simp only [handleError]

/-- Witness for the amended C5 at a concrete unknown error kind. -/
theorem handleError_unknown_kind_interpolates_witness :
    handleError (some { code := "RangeError", message := "index out of range" })
      = "I encountered an issue: " ++ "index out of range"
          ++ ". Would you like me to try a different approach?" :=
  handleError_unknown_kind_interpolates
    { code := "RangeError", message := "index out of range" }
    (by decide) (by decide)

/-- C10: the Calculator's `divide` implementation is a guarded total
operation — with `b = 0` it fails with the error `Division by zero` without
producing a value, and with `b ≠ 0` it returns exactly `a / b`. -/
theorem divide_guarded_total (a b : Rat) :
    divideTool.implementation [("a", JsonValue.num a), ("b", JsonValue.num 0)]
        = .error "Division by zero"
    ∧ (b ≠ 0 →
        divideTool.implementation [("a", JsonValue.num a), ("b", JsonValue.num b)]
          = .ok (.num (a / b))) := by
  have h : ∀ y : Rat,
      divideTool.implementation [("a", JsonValue.num a), ("b", JsonValue.num y)]
        = if y = 0 then .error "Division by zero" else .ok (.num (a / y)) :=
    fun y => rfl
  constructor
  · rw [h 0, if_pos rfl]
  · intro hb
    rw [h b, if_neg hb]

/-- Witness for C10: divide fails on `b = 0` and computes `6 / 3 = 2`. -/
theorem divide_guarded_total_witness :
    divideTool.implementation [("a", JsonValue.num 6), ("b", JsonValue.num 0)]
        = .error "Division by zero"
    ∧ divideTool.implementation [("a", JsonValue.num 6), ("b", JsonValue.num 3)]
        = .ok (.num 2) := by
  have h := divide_guarded_total 6 3
  refine ⟨h.1, ?_⟩
  rw [h.2 (by norm_num)]
  norm_num

/-- C2: whenever the located tool's implementation fails after a successful
parse, dispatch returns a tagged `Failure` of kind `ToolError` carrying the
original message (the invocation is recorded in the trace); dispatch is a
total function, so no exception crosses the dispatch boundary. -/
theorem dispatch_implementation_error_becomes_ToolError
    (registry : List ToolDescriptor) (toolName : String) (payload : JsonValue)
    (d : ToolDescriptor) (args : ParsedArgs) (m : String)
    (hfind : registry.find? (fun t => t.name == toolName) = some d)
    (hparse : parsePayload d.parameters payload = .ok args)
    (himpl : d.implementation args = .error m) :
    dispatchT registry toolName payload
      = (.Failure .ToolError m, [(d.name, args)]) := by
  simp only [dispatchT, hfind, hparse, himpl]

/-- Witness for C2: dividing by zero through the Calculator registry yields
`Failure ToolError` with the implementation's original message. -/
theorem dispatch_implementation_error_becomes_ToolError_witness :
    dispatchT (mergedAgentTools [calculatorAgent]) "divide"
        (JsonValue.obj [("a", .num 1), ("b", .num 0)])
      = (.Failure .ToolError "Division by zero",
         [("divide", [("a", JsonValue.num 1), ("b", JsonValue.num 0)])]) :=
  dispatch_implementation_error_becomes_ToolError
    (mergedAgentTools [calculatorAgent]) "divide"
    (JsonValue.obj [("a", .num 1), ("b", .num 0)])
    (createTool divideTool) [("a", JsonValue.num 1), ("b", JsonValue.num 0)]
    "Division by zero" rfl rfl
    (by
      have h : (createTool divideTool).implementation
          [("a", JsonValue.num 1), ("b", JsonValue.num 0)]
            = if (0 : Rat) = 0 then .error "Division by zero"
              else .ok (.num ((1 : Rat) / 0)) := rfl
      rw [h, if_pos rfl])

/-- C6: whenever the raw payload does not conform to the located tool's
parameter schema (the parser fails), dispatch returns `Failure` of kind
`InvalidArguments` and the invocation trace is empty — the implementation is
never invoked. -/
theorem dispatch_invalid_payload_skips_implementation
    (registry : List ToolDescriptor) (toolName : String) (payload : JsonValue)
    (d : ToolDescriptor) (m : String)
    (hfind : registry.find? (fun t => t.name == toolName) = some d)
    (hparse : parsePayload d.parameters payload = .error m) :
    dispatchT registry toolName payload = (.Failure .InvalidArguments m, []) := by
  simp only [dispatchT, hfind, hparse]

/-- Witness for C6: a payload missing the required field `b` for the
Calculator's `add` tool is rejected without invoking the implementation. -/
theorem dispatch_invalid_payload_skips_implementation_witness :
    dispatchT (mergedAgentTools [calculatorAgent]) "add"
        (JsonValue.obj [("a", .num 2)])
      = (.Failure .InvalidArguments "Required field missing: b", []) :=
  dispatch_invalid_payload_skips_implementation
    (mergedAgentTools [calculatorAgent]) "add" (JsonValue.obj [("a", .num 2)])
    (createTool addTool) "Required field missing: b" rfl rfl

/-- C7: whenever the raw payload conforms to the located tool's schema and
the implementation succeeds, dispatch invokes exactly the implementation
registered under the requested name, exactly once, with the parsed typed
arguments, and returns `Success` wrapping the implementation's return value
unchanged; the located descriptor indeed carries the requested name. -/
theorem dispatch_valid_payload_invokes_once
    (registry : List ToolDescriptor) (toolName : String) (payload : JsonValue)
    (d : ToolDescriptor) (args : ParsedArgs) (v : JsonValue)
    (hfind : registry.find? (fun t => t.name == toolName) = some d)
    (hparse : parsePayload d.parameters payload = .ok args)
    (himpl : d.implementation args = .ok v) :
    dispatchT registry toolName payload = (.Success v, [(toolName, args)])
    ∧ d.name = toolName := by
  have hname : d.name = toolName := by
    have hp := List.find?_some hfind
    exact eq_of_beq hp
  constructor
  · simp only [dispatchT, hfind, hparse, himpl, hname]
  · exact hname

/-- Witness for C7: the Calculator's `add` tool with the payload carrying
`a = 2` and `b = 2` dispatches to `Success 4`, with exactly one recorded
invocation. -/
theorem dispatch_valid_payload_invokes_once_witness :
    dispatchT (mergedAgentTools [calculatorAgent]) "add"
        (JsonValue.obj [("a", .num 2), ("b", .num 2)])
      = (.Success (.num 4), [("add", [("a", JsonValue.num 2), ("b", JsonValue.num 2)])]) :=
  (dispatch_valid_payload_invokes_once
    (mergedAgentTools [calculatorAgent]) "add"
    (JsonValue.obj [("a", .num 2), ("b", .num 2)])
    (createTool addTool) [("a", JsonValue.num 2), ("b", JsonValue.num 2)]
    (.num 4) rfl rfl
    (by
      have h : (createTool addTool).implementation
          [("a", JsonValue.num 2), ("b", JsonValue.num 2)]
            = .ok (.num ((2 : Rat) + 2)) := rfl
      rw [h]
      norm_num)).1

/-- C1 counterexample: merging the Calculator with a second provider whose
tool list also contains a tool named `add` does not fail — the coordinator
constructor performs no duplicate detection and both `add` descriptors
silently coexist in the merged registry, so the spec-side uniqueness
invariant is violated. -/
theorem registry_duplicate_names_coexist_counterexample :
    (mergedAgentTools [calculatorAgent, tallyAgent]).map ToolDescriptor.name
      = ["add", "subtract", "multiply", "divide", "add"]
    ∧ ¬ specNamesUnique (mergedAgentTools [calculatorAgent, tallyAgent]) := by
  constructor
  · rfl
  · decide

/-- C1 amended: constructing the merged registry never fails and performs no
duplicate-name check — for every pair of providers whose tool lists contain
a tool with the same name, both descriptors appear in the merged registry
(the shared name occurs at least twice). -/
theorem registry_duplicate_names_coexist (A B : Agent) (n : String)
    (hA : n ∈ A.zodTools.map ZodTool.name) (hB : n ∈ B.zodTools.map ZodTool.name) :
    2 ≤ (mergedAgentTools [A, B]).countP (fun d => d.name == n) := by
  have hm : mergedAgentTools [A, B]
      = A.zodTools.map createTool ++ B.zodTools.map createTool := by
    simp [mergedAgentTools, getTools]
  have key : ∀ (ag : Agent), n ∈ ag.zodTools.map ZodTool.name →
      0 < (ag.zodTools.map createTool).countP (fun d => d.name == n) := by
    intro ag h
    rcases List.mem_map.mp h with ⟨t, ht, hname⟩
    refine List.countP_pos_iff.mpr ?_
    exact ⟨createTool t, List.mem_map_of_mem _ ht, by simp [createTool, hname]⟩
  have h1 := key A hA
  have h2 := key B hB
  rw [hm, List.countP_append]
  omega

/-- Witness for the amended C1: the Calculator and the Tally provider both
expose a tool named `add`, and the merged registry contains both. -/
theorem registry_duplicate_names_coexist_witness :
    2 ≤ (mergedAgentTools [calculatorAgent, tallyAgent]).countP
          (fun d => d.name == "add") :=
  registry_duplicate_names_coexist calculatorAgent tallyAgent "add"
    (by decide) (by decide)

/-- Witness for C3: a failed turn on a fresh session leaves exactly the
system entry and the user entry in the history. -/
theorem process_oracle_failure_no_assistant_entry_witness :
    (process (initState "sys") "hi" (.err none)).2.messageHistory
      = [{ role := .system, content := "sys" }, { role := .user, content := "hi" }] := by
  have h := process_oracle_failure_no_assistant_entry (initState "sys") "hi" none
  rw [h.2.1]
  rfl

/-- Witness for C4: a successful turn on a fresh session appends exactly the
user entry and the assistant entry holding the returned content. -/
theorem process_success_appends_exactly_two_witness :
    (process (initState "sys") "2+2 is what?" (.ok 1 (some "2 + 2 = 4"))).2.messageHistory
      = [{ role := .system, content := "sys" },
         { role := .user, content := "2+2 is what?" },
         { role := .assistant, content := "2 + 2 = 4" }] := by
  have h := process_success_appends_exactly_two (initState "sys") "2+2 is what?" 1 (some "2 + 2 = 4")
  rw [h.1]
  rfl
